import Mathlib

/-!
Verification of the schema-encoding core and the indexer query builder of the
js-algorand-sdk excerpt.

The embedding models TypeScript values that flow through the encoding engine as
an inductive `JSValue` (the TS `unknown` / intermediate-tree universe: the
distinguished `undefined` and `null` scalars, booleans, numbers, strings, byte
blobs, ordered sequences and ordered-key mappings), a `Schema` as a record of
the six operations of the abstract `Schema` contract, and `OptionalSchema` as a
function from an inner schema to the wrapped schema, translated line by line
from `src/encoding/schema/optional.ts`.
-/

namespace JsSdk

mutual

/-- The universe of JavaScript values used both as domain values (`unknown`) and
as intermediate encoding trees (`MsgpackEncodingData` / `JSONEncodingData`):
`undefined`, `null`, scalars, sequences and ordered-key mappings. Sequences and
mappings are given by the mutually defined list types below so that equality
stays decidable. -/
inductive JSValue where
  | undef : JSValue
  | null : JSValue
  | bool (b : Bool) : JSValue
  | num (n : Int) : JSValue
  | str (s : String) : JSValue
  | bytes (bs : List Nat) : JSValue
  | arr (xs : JSValueList) : JSValue
  | map (kvs : JSFieldList) : JSValue

/-- An ordered sequence of `JSValue`s (a JS array). -/
inductive JSValueList where
  | nil : JSValueList
  | cons (hd : JSValue) (tl : JSValueList) : JSValueList

/-- An ordered-key mapping from strings to `JSValue`s (a JS object / Map). -/
inductive JSFieldList where
  | nil : JSFieldList
  | cons (key : String) (val : JSValue) (tl : JSFieldList) : JSFieldList

end

mutual

/-- Decides equality of two `JSValue`s. -/
def JSValue.decEq : (a b : JSValue) → Decidable (a = b)
  | .undef, .undef => isTrue rfl
  | .null, .null => isTrue rfl
  | .bool a, .bool b =>
    if h : a = b then isTrue (by rw [h]) else isFalse (by simp [h])
  | .num a, .num b =>
    if h : a = b then isTrue (by rw [h]) else isFalse (by simp [h])
  | .str a, .str b =>
    if h : a = b then isTrue (by rw [h]) else isFalse (by simp [h])
  | .bytes a, .bytes b =>
    if h : a = b then isTrue (by rw [h]) else isFalse (by simp [h])
  | .arr a, .arr b =>
    match JSValueList.decEq a b with
    | isTrue h => isTrue (by rw [h])
    | isFalse h => isFalse (by simp [h])
  | .map a, .map b =>
    match JSFieldList.decEq a b with
    | isTrue h => isTrue (by rw [h])
    | isFalse h => isFalse (by simp [h])
  | .undef, .null | .undef, .bool _ | .undef, .num _ | .undef, .str _
  | .undef, .bytes _ | .undef, .arr _ | .undef, .map _
  | .null, .undef | .null, .bool _ | .null, .num _ | .null, .str _
  | .null, .bytes _ | .null, .arr _ | .null, .map _
  | .bool _, .undef | .bool _, .null | .bool _, .num _ | .bool _, .str _
  | .bool _, .bytes _ | .bool _, .arr _ | .bool _, .map _
  | .num _, .undef | .num _, .null | .num _, .bool _ | .num _, .str _
  | .num _, .bytes _ | .num _, .arr _ | .num _, .map _
  | .str _, .undef | .str _, .null | .str _, .bool _ | .str _, .num _
  | .str _, .bytes _ | .str _, .arr _ | .str _, .map _
  | .bytes _, .undef | .bytes _, .null | .bytes _, .bool _ | .bytes _, .num _
  | .bytes _, .str _ | .bytes _, .arr _ | .bytes _, .map _
  | .arr _, .undef | .arr _, .null | .arr _, .bool _ | .arr _, .num _
  | .arr _, .str _ | .arr _, .bytes _ | .arr _, .map _
  | .map _, .undef | .map _, .null | .map _, .bool _ | .map _, .num _
  | .map _, .str _ | .map _, .bytes _ | .map _, .arr _ =>
    isFalse (by intro h; exact JSValue.noConfusion h)

/-- Decides equality of two `JSValueList`s. -/
def JSValueList.decEq : (a b : JSValueList) → Decidable (a = b)
  | .nil, .nil => isTrue rfl
  | .cons x xs, .cons y ys =>
    match JSValue.decEq x y with
    | isFalse h => isFalse (by simp [h])
    | isTrue h =>
      match JSValueList.decEq xs ys with
      | isTrue h2 => isTrue (by rw [h, h2])
      | isFalse h2 => isFalse (by simp [h2])
  | .nil, .cons _ _ | .cons _ _, .nil =>
    isFalse (by intro h; exact JSValueList.noConfusion h)

/-- Decides equality of two `JSFieldList`s. -/
def JSFieldList.decEq : (a b : JSFieldList) → Decidable (a = b)
  | .nil, .nil => isTrue rfl
  | .cons k v tl, .cons k2 v2 tl2 =>
    if hk : k = k2 then
      match JSValue.decEq v v2 with
      | isFalse h => isFalse (by simp [h])
      | isTrue h =>
        match JSFieldList.decEq tl tl2 with
        | isTrue h2 => isTrue (by rw [hk, h, h2])
        | isFalse h2 => isFalse (by simp [h2])
    else isFalse (by simp [hk])
  | .nil, .cons _ _ _ | .cons _ _ _, .nil =>
    isFalse (by intro h; exact JSFieldList.noConfusion h)

end

instance : DecidableEq JSValue := JSValue.decEq
instance : DecidableEq JSValueList := JSValueList.decEq
instance : DecidableEq JSFieldList := JSFieldList.decEq

/-- The abstract `Schema` contract from `encoding.ts` (not part of the excerpt
under `src/`; the operation set is the one the spec states and `optional.ts`
calls): default value, default test, and the two prepare/fromPrepared pairs. -/
structure Schema where
  defaultValue : JSValue
  isDefaultValue : JSValue → Bool
  prepareMsgpack : JSValue → JSValue
  fromPreparedMsgpack : JSValue → JSValue
  prepareJSON : JSValue → JSValue
  fromPreparedJSON : JSValue → JSValue

/-- `OptionalSchema` from `src/encoding/schema/optional.ts`, field for field:

* `defaultValue()` returns `undefined`;
* `isDefaultValue(data)` is `data === undefined || valueSchema.isDefaultValue(data)`;
* `prepareMsgpack(data)` returns `undefined` when `data === undefined`, else
  delegates;
* `fromPreparedMsgpack(encoded)` returns `undefined` when `encoded === undefined`
  or `encoded === null`, else delegates;
* `prepareJSON(data)` returns `null` when `data === undefined`, else delegates;
* `fromPreparedJSON(encoded)` returns `undefined` when `encoded === undefined`
  or `encoded === null`, else delegates. -/
def OptionalSchema (valueSchema : Schema) : Schema where
  defaultValue := JSValue.undef
  isDefaultValue data := data == JSValue.undef || valueSchema.isDefaultValue data
  prepareMsgpack data :=
    if data = JSValue.undef then JSValue.undef
    else valueSchema.prepareMsgpack data
  fromPreparedMsgpack encoded :=
    if encoded = JSValue.undef ∨ encoded = JSValue.null then JSValue.undef
    else valueSchema.fromPreparedMsgpack encoded
  prepareJSON data :=
    if data = JSValue.undef then JSValue.null
    else valueSchema.prepareJSON data
  fromPreparedJSON encoded :=
    if encoded = JSValue.undef ∨ encoded = JSValue.null then JSValue.undef
    else valueSchema.fromPreparedJSON encoded

/-- The `OptionalSchema` class constructor, `constructor(valueSchema) { super(); }`:
it stores the inner schema and performs no validation whatsoever, so it can
never signal a construction error. Modelled in the `Except` error monad to make
the absence of any rejection path a statable fact. -/
def OptionalSchema.construct (valueSchema : Schema) : Except String Schema :=
  Except.ok (OptionalSchema valueSchema)

/-- A concrete inner schema used as a test input for witnesses: a plain integer
scalar whose default is `0` and whose prepare/fromPrepared maps are the
identity. It is an input to the theorems, not part of the embedding. -/
def testInnerSchema : Schema where
  defaultValue := JSValue.num 0
  isDefaultValue data := data == JSValue.num 0
  prepareMsgpack data := data
  fromPreparedMsgpack encoded := encoded
  prepareJSON data := data
  fromPreparedJSON encoded := encoded

/-- A concrete inner schema whose msgpack pipeline normalises everything to the
integer `0`; its round-trip is constant, hence idempotent, and its prepared
output is never `undefined` nor `null`. Used only as a witness input. -/
def constSchema : Schema where
  defaultValue := JSValue.num 0
  isDefaultValue data := data == JSValue.num 0
  prepareMsgpack _ := JSValue.num 0
  fromPreparedMsgpack _ := JSValue.num 0
  prepareJSON _ := JSValue.num 0
  fromPreparedJSON _ := JSValue.num 0

/-- The msgpack round-trip of an inner schema `S`:
`S.fromPreparedMsgpack ∘ S.prepareMsgpack`. -/
def innerRoundTrip (S : Schema) (v : JSValue) : JSValue :=
  S.fromPreparedMsgpack (S.prepareMsgpack v)

/-- The msgpack round-trip of `OptionalSchema S`:
`(OptionalSchema S).fromPreparedMsgpack ∘ (OptionalSchema S).prepareMsgpack`. -/
def optRoundTrip (S : Schema) (v : JSValue) : JSValue :=
  (OptionalSchema S).fromPreparedMsgpack ((OptionalSchema S).prepareMsgpack v)

/-- A value stored under a key of the request-query mapping: the builder methods
of `lookupAccountAppLocalStates.ts` store numbers, strings and booleans. -/
inductive QueryValue where
  | num (n : Int) : QueryValue
  | str (s : String) : QueryValue
  | bool (b : Bool) : QueryValue
deriving DecidableEq

/-- The state of a `LookupAccountAppLocalStates` request object from
`src/client/v2/indexer/lookupAccountAppLocalStates.ts`: the account stored by
the constructor and the query mapping inherited from `JSONRequest` (modelled as
a partial map from key strings to values; the HTTP client and int-decoding
fields play no part in the builder methods and are omitted). -/
structure LookupAccountAppLocalStates where
  account : String
  query : String → Option QueryValue

/-- The `LookupAccountAppLocalStates` constructor: stores the account. The base
`JSONRequest` class (outside the excerpt) starts the query mapping empty. -/
def LookupAccountAppLocalStates.create (account : String) :
    LookupAccountAppLocalStates :=
  { account := account, query := fun _ => none }

/-- `path()` returns `/v2/accounts/${this.account}/apps-local-state`. -/
def LookupAccountAppLocalStates.path (m : LookupAccountAppLocalStates) : String :=
  "/v2/accounts/" ++ m.account ++ "/apps-local-state"

/-- `limit(limit)`: `this.query.limit = limit; return this;`. Mutation of `this`
followed by `return this` is modelled as the updated state being the result. -/
def LookupAccountAppLocalStates.limit (m : LookupAccountAppLocalStates)
    (limit : Int) : LookupAccountAppLocalStates :=
  { m with query := fun k => if k = "limit" then some (QueryValue.num limit) else m.query k }

/-- `round(round)`: `this.query.round = round; return this;`. -/
def LookupAccountAppLocalStates.round (m : LookupAccountAppLocalStates)
    (round : Int) : LookupAccountAppLocalStates :=
  { m with query := fun k => if k = "round" then some (QueryValue.num round) else m.query k }

/-- `nextToken(nextToken)`: `this.query.next = nextToken; return this;`. -/
def LookupAccountAppLocalStates.nextToken (m : LookupAccountAppLocalStates)
    (nextToken : String) : LookupAccountAppLocalStates :=
  { m with query := fun k => if k = "next" then some (QueryValue.str nextToken) else m.query k }

/-- `includeAll(value = true)`: `this.query['include-all'] = value; return this;`
with `true` as the default argument. -/
def LookupAccountAppLocalStates.includeAll (m : LookupAccountAppLocalStates)
    (value : Bool := true) : LookupAccountAppLocalStates :=
  { m with query := fun k => if k = "include-all" then some (QueryValue.bool value) else m.query k }

/-- `applicationID(index)`: `this.query['application-id'] = index; return this;`. -/
def LookupAccountAppLocalStates.applicationID (m : LookupAccountAppLocalStates)
    (index : Int) : LookupAccountAppLocalStates :=
  { m with query := fun k => if k = "application-id" then some (QueryValue.num index) else m.query k }

/-- One call to a query-builder method, for stating properties of arbitrary
chains of builder calls. -/
inductive BuilderCall where
  | limit (n : Int) : BuilderCall
  | round (r : Int) : BuilderCall
  | nextToken (s : String) : BuilderCall
  | includeAll (b : Bool) : BuilderCall
  | applicationID (n : Int) : BuilderCall

/-- Applies a chain of query-builder calls to a request object, left to right,
as TS method chaining does. -/
def applyCalls (m : LookupAccountAppLocalStates) :
    List BuilderCall → LookupAccountAppLocalStates
  | [] => m
  | c :: rest =>
    applyCalls
      (match c with
        | .limit n => m.limit n
        | .round r => m.round r
        | .nextToken s => m.nextToken s
        | .includeAll b => m.includeAll b
        | .applicationID n => m.applicationID n)
      rest

/-- C1: for every inner schema `S` and value `v`, `OptionalSchema(S).isDefaultValue v`
is true iff `v` is the absent marker (`undefined`) or `S.isDefaultValue v` is
true; moreover `OptionalSchema(S).isDefaultValue (OptionalSchema(S).defaultValue())`
is true, and `OptionalSchema(S).isDefaultValue (S.defaultValue())` is true
whenever `S.isDefaultValue (S.defaultValue())` holds. -/
theorem optionalSchema_isDefaultValue_spec (S : Schema) (v : JSValue)
    (hS : S.isDefaultValue S.defaultValue = true) :
    ((OptionalSchema S).isDefaultValue v = true ↔
      (v = JSValue.undef ∨ S.isDefaultValue v = true))
    ∧ (OptionalSchema S).isDefaultValue (OptionalSchema S).defaultValue = true
    ∧ (OptionalSchema S).isDefaultValue S.defaultValue = true := by
  refine ⟨?_, ?_, ?_⟩
  · simp [OptionalSchema]
  · simp [OptionalSchema]
  · simp [OptionalSchema, hS]

/-- Witness for C1 at the concrete inner schema `testInnerSchema` and value `7`. -/
theorem optionalSchema_isDefaultValue_spec_witness :
    testInnerSchema.isDefaultValue testInnerSchema.defaultValue = true
    ∧ (((OptionalSchema testInnerSchema).isDefaultValue (JSValue.num 7) = true ↔
        (JSValue.num 7 = JSValue.undef ∨
          testInnerSchema.isDefaultValue (JSValue.num 7) = true))
      ∧ (OptionalSchema testInnerSchema).isDefaultValue
          (OptionalSchema testInnerSchema).defaultValue = true
      ∧ (OptionalSchema testInnerSchema).isDefaultValue
          testInnerSchema.defaultValue = true) :=
  ⟨by decide,
    optionalSchema_isDefaultValue_spec testInnerSchema (JSValue.num 7) (by decide)⟩

/-- C2: `OptionalSchema(S).prepareMsgpack` sends the absent marker to the wire
format's no-value scalar (`undefined`) and delegates to `S.prepareMsgpack` on
every other value. -/
theorem optionalSchema_prepareMsgpack_spec (S : Schema) (v : JSValue)
    (h : v ≠ JSValue.undef) :
    (OptionalSchema S).prepareMsgpack JSValue.undef = JSValue.undef
    ∧ (OptionalSchema S).prepareMsgpack v = S.prepareMsgpack v := by
  constructor
  · simp [OptionalSchema]
  · simp [OptionalSchema, h]

/-- Witness for C2 at `testInnerSchema` and value `5`. -/
theorem optionalSchema_prepareMsgpack_spec_witness :
    JSValue.num 5 ≠ JSValue.undef
    ∧ ((OptionalSchema testInnerSchema).prepareMsgpack JSValue.undef = JSValue.undef
      ∧ (OptionalSchema testInnerSchema).prepareMsgpack (JSValue.num 5)
          = testInnerSchema.prepareMsgpack (JSValue.num 5)) :=
  ⟨by decide,
    optionalSchema_prepareMsgpack_spec testInnerSchema (JSValue.num 5) (by decide)⟩

/-- C3: `OptionalSchema(S).fromPreparedMsgpack` sends both the wire no-value
(`undefined`) and the alternate empty-marker (`null`) to the absent marker, and
delegates to `S.fromPreparedMsgpack` on every other tree. -/
theorem optionalSchema_fromPreparedMsgpack_spec (S : Schema) (t : JSValue)
    (h1 : t ≠ JSValue.undef) (h2 : t ≠ JSValue.null) :
    (OptionalSchema S).fromPreparedMsgpack JSValue.undef = JSValue.undef
    ∧ (OptionalSchema S).fromPreparedMsgpack JSValue.null = JSValue.undef
    ∧ (OptionalSchema S).fromPreparedMsgpack t = S.fromPreparedMsgpack t := by
  refine ⟨?_, ?_, ?_⟩
  · simp [OptionalSchema]
  · simp [OptionalSchema]
  · simp [OptionalSchema, h1, h2]

/-- Witness for C3 at `testInnerSchema` and tree `5`. -/
theorem optionalSchema_fromPreparedMsgpack_spec_witness :
    JSValue.num 5 ≠ JSValue.undef
    ∧ JSValue.num 5 ≠ JSValue.null
    ∧ ((OptionalSchema testInnerSchema).fromPreparedMsgpack JSValue.undef = JSValue.undef
      ∧ (OptionalSchema testInnerSchema).fromPreparedMsgpack JSValue.null = JSValue.undef
      ∧ (OptionalSchema testInnerSchema).fromPreparedMsgpack (JSValue.num 5)
          = testInnerSchema.fromPreparedMsgpack (JSValue.num 5)) :=
  ⟨by decide, by decide,
    optionalSchema_fromPreparedMsgpack_spec testInnerSchema (JSValue.num 5)
      (by decide) (by decide)⟩

/-- C4 counterexample: constructing `OptionalSchema(OptionalSchema(S))` at the
concrete inner schema `testInnerSchema` succeeds — the constructor returns the
nested schema and raises no schema-construction error, so the composition is
silently accepted, contrary to the claim that it is rejected. -/
theorem optionalSchema_nested_construct_accepted_cex :
    OptionalSchema.construct (OptionalSchema testInnerSchema)
      = Except.ok (OptionalSchema (OptionalSchema testInnerSchema)) := rfl

/-- C4 amended: constructing `OptionalSchema(OptionalSchema(S))` is silently
accepted for every inner schema `S` — the constructor performs no validation
and never raises a construction error; the resulting doubly-wrapped schema is
degenerate, behaving identically to `OptionalSchema(S)` on every operation. -/
theorem optionalSchema_construct_accepts_nested (S : Schema) (v : JSValue) :
    OptionalSchema.construct (OptionalSchema S)
      = Except.ok (OptionalSchema (OptionalSchema S))
    ∧ (OptionalSchema (OptionalSchema S)).defaultValue
        = (OptionalSchema S).defaultValue
    ∧ (OptionalSchema (OptionalSchema S)).isDefaultValue v
        = (OptionalSchema S).isDefaultValue v
    ∧ (OptionalSchema (OptionalSchema S)).prepareMsgpack v
        = (OptionalSchema S).prepareMsgpack v
    ∧ (OptionalSchema (OptionalSchema S)).fromPreparedMsgpack v
        = (OptionalSchema S).fromPreparedMsgpack v
    ∧ (OptionalSchema (OptionalSchema S)).prepareJSON v
        = (OptionalSchema S).prepareJSON v
    ∧ (OptionalSchema (OptionalSchema S)).fromPreparedJSON v
        = (OptionalSchema S).fromPreparedJSON v := by
  refine ⟨rfl, rfl, ?_, ?_, ?_, ?_, ?_⟩
  · by_cases h : v = JSValue.undef <;> simp [OptionalSchema, h]
  · by_cases h : v = JSValue.undef <;> simp [OptionalSchema, h]
  · by_cases h : v = JSValue.undef ∨ v = JSValue.null <;> simp [OptionalSchema, h]
  · by_cases h : v = JSValue.undef <;> simp [OptionalSchema, h]
  · by_cases h : v = JSValue.undef ∨ v = JSValue.null <;> simp [OptionalSchema, h]

/-- C6: `OptionalSchema(S).defaultValue()` is the distinguished absent marker
(`undefined`), and differs from `S.defaultValue()` whenever the latter is not
itself the absent marker. -/
theorem optionalSchema_defaultValue_spec (S : Schema)
    (h : S.defaultValue ≠ JSValue.undef) :
    (OptionalSchema S).defaultValue = JSValue.undef
    ∧ (OptionalSchema S).defaultValue ≠ S.defaultValue :=
  ⟨rfl, fun hc => h hc.symm⟩

/-- Witness for C6 at `testInnerSchema`, whose default is the integer `0`. -/
theorem optionalSchema_defaultValue_spec_witness :
    testInnerSchema.defaultValue ≠ JSValue.undef
    ∧ ((OptionalSchema testInnerSchema).defaultValue = JSValue.undef
      ∧ (OptionalSchema testInnerSchema).defaultValue ≠ testInnerSchema.defaultValue) :=
  ⟨by decide, optionalSchema_defaultValue_spec testInnerSchema (by decide)⟩

/-- C7: `OptionalSchema(S).prepareJSON` sends the absent marker to JSON `null`
(never an omitted or `undefined` scalar) and delegates to `S.prepareJSON` on
every other value. -/
theorem optionalSchema_prepareJSON_spec (S : Schema) (v : JSValue)
    (h : v ≠ JSValue.undef) :
    (OptionalSchema S).prepareJSON JSValue.undef = JSValue.null
    ∧ (OptionalSchema S).prepareJSON v = S.prepareJSON v := by
  constructor
  · simp [OptionalSchema]
  · simp [OptionalSchema, h]

/-- Witness for C7 at `testInnerSchema` and value `5`. -/
theorem optionalSchema_prepareJSON_spec_witness :
    JSValue.num 5 ≠ JSValue.undef
    ∧ ((OptionalSchema testInnerSchema).prepareJSON JSValue.undef = JSValue.null
      ∧ (OptionalSchema testInnerSchema).prepareJSON (JSValue.num 5)
          = testInnerSchema.prepareJSON (JSValue.num 5)) :=
  ⟨by decide,
    optionalSchema_prepareJSON_spec testInnerSchema (JSValue.num 5) (by decide)⟩

/-- C8: `OptionalSchema(S).fromPreparedJSON` sends both JSON `null` and the
absent-key sentinel (`undefined`) to the absent marker, and delegates to
`S.fromPreparedJSON` on every other tree. -/
theorem optionalSchema_fromPreparedJSON_spec (S : Schema) (t : JSValue)
    (h1 : t ≠ JSValue.undef) (h2 : t ≠ JSValue.null) :
    (OptionalSchema S).fromPreparedJSON JSValue.null = JSValue.undef
    ∧ (OptionalSchema S).fromPreparedJSON JSValue.undef = JSValue.undef
    ∧ (OptionalSchema S).fromPreparedJSON t = S.fromPreparedJSON t := by
  refine ⟨?_, ?_, ?_⟩
  · simp [OptionalSchema]
  · simp [OptionalSchema]
  · simp [OptionalSchema, h1, h2]

/-- Witness for C8 at `testInnerSchema` and tree `5`. -/
theorem optionalSchema_fromPreparedJSON_spec_witness :
    JSValue.num 5 ≠ JSValue.undef
    ∧ JSValue.num 5 ≠ JSValue.null
    ∧ ((OptionalSchema testInnerSchema).fromPreparedJSON JSValue.null = JSValue.undef
      ∧ (OptionalSchema testInnerSchema).fromPreparedJSON JSValue.undef = JSValue.undef
      ∧ (OptionalSchema testInnerSchema).fromPreparedJSON (JSValue.num 5)
          = testInnerSchema.fromPreparedJSON (JSValue.num 5)) :=
  ⟨by decide, by decide,
    optionalSchema_fromPreparedJSON_spec testInnerSchema (JSValue.num 5)
      (by decide) (by decide)⟩

/-- C5: if the inner msgpack round-trip `innerRoundTrip S` is idempotent and
`S.prepareMsgpack` never yields `undefined` or `null` on a non-absent value in
the image of the round-trip, then the `OptionalSchema S` msgpack round-trip is
idempotent past one cycle: `optRoundTrip S (optRoundTrip S v) = optRoundTrip S v`
for every value `v`, even where `optRoundTrip S v ≠ v`. -/
theorem optionalSchema_roundtrip_idempotent (S : Schema) (v : JSValue)
    (h1 : ∀ w, innerRoundTrip S (innerRoundTrip S w) = innerRoundTrip S w)
    (h2 : ∀ w, innerRoundTrip S w ≠ JSValue.undef →
      S.prepareMsgpack (innerRoundTrip S w) ≠ JSValue.undef
        ∧ S.prepareMsgpack (innerRoundTrip S w) ≠ JSValue.null) :
    optRoundTrip S (optRoundTrip S v) = optRoundTrip S v := by
  have habs : optRoundTrip S JSValue.undef = JSValue.undef := by
    simp [optRoundTrip, OptionalSchema]
  by_cases hv : v = JSValue.undef
  · rw [hv, habs, habs]
  · by_cases ht : S.prepareMsgpack v = JSValue.undef ∨ S.prepareMsgpack v = JSValue.null
    · have hzero : optRoundTrip S v = JSValue.undef := by
        simp [optRoundTrip, OptionalSchema, hv, ht]
      rw [hzero, habs]
    · have hone : optRoundTrip S v = innerRoundTrip S v := by
        simp [optRoundTrip, innerRoundTrip, OptionalSchema, hv, ht]
      rw [hone]
      by_cases hw : innerRoundTrip S v = JSValue.undef
      · rw [hw, habs]
      · obtain ⟨hp1, hp2⟩ := h2 v hw
        have step1 : (OptionalSchema S).prepareMsgpack (innerRoundTrip S v)
            = S.prepareMsgpack (innerRoundTrip S v) := by
          simp [OptionalSchema, hw]
        have step2 : (OptionalSchema S).fromPreparedMsgpack
              (S.prepareMsgpack (innerRoundTrip S v))
            = S.fromPreparedMsgpack (S.prepareMsgpack (innerRoundTrip S v)) := by
          simp [OptionalSchema, hp1, hp2]
        have hrw : optRoundTrip S (innerRoundTrip S v)
            = S.fromPreparedMsgpack (S.prepareMsgpack (innerRoundTrip S v)) := by
          show (OptionalSchema S).fromPreparedMsgpack
              ((OptionalSchema S).prepareMsgpack (innerRoundTrip S v)) = _
          rw [step1, step2]
        rw [hrw]
        exact h1 v

/-- Witness for C5 at the normalising inner schema `constSchema` and value
`null`: the inner round-trip is constantly `0`, so both hypotheses hold and the
wrapped round-trip is idempotent there. -/
theorem optionalSchema_roundtrip_idempotent_witness :
    (∀ w, innerRoundTrip constSchema (innerRoundTrip constSchema w)
        = innerRoundTrip constSchema w)
    ∧ (∀ w, innerRoundTrip constSchema w ≠ JSValue.undef →
        constSchema.prepareMsgpack (innerRoundTrip constSchema w) ≠ JSValue.undef
          ∧ constSchema.prepareMsgpack (innerRoundTrip constSchema w) ≠ JSValue.null)
    ∧ optRoundTrip constSchema (optRoundTrip constSchema JSValue.null)
        = optRoundTrip constSchema JSValue.null :=
  ⟨fun _ => rfl,
    fun _ _ => ⟨fun hc => JSValue.noConfusion hc, fun hc => JSValue.noConfusion hc⟩,
    optionalSchema_roundtrip_idempotent constSchema JSValue.null (fun _ => rfl)
      (fun _ _ => ⟨fun hc => JSValue.noConfusion hc, fun hc => JSValue.noConfusion hc⟩)⟩

/-- Each query-builder method leaves the account field unchanged. -/
theorem applyCalls_account (calls : List BuilderCall)
    (m : LookupAccountAppLocalStates) :
    (applyCalls m calls).account = m.account := by
  induction calls generalizing m with
  | nil => rfl
  | cons c rest ih =>
    cases c <;>
      simp [applyCalls, LookupAccountAppLocalStates.limit,
        LookupAccountAppLocalStates.round, LookupAccountAppLocalStates.nextToken,
        LookupAccountAppLocalStates.includeAll,
        LookupAccountAppLocalStates.applicationID, ih]

/-- C9: every query-builder method of `LookupAccountAppLocalStates` yields the
same request object with exactly one query key set (`limit`, `round`, `next`,
`include-all`, `application-id` respectively), leaving the account, every other
query key, and the path unchanged; `includeAll` called with no argument sets
`include-all` to `true`. -/
theorem lookupAccountAppLocalStates_builder_frame
    (m : LookupAccountAppLocalStates) (n r app : Int) (tok : String) (b : Bool)
    (k1 k2 k3 k4 k5 : String)
    (hk1 : k1 ≠ "limit") (hk2 : k2 ≠ "round") (hk3 : k3 ≠ "next")
    (hk4 : k4 ≠ "include-all") (hk5 : k5 ≠ "application-id") :
    ((m.limit n).account = m.account ∧ (m.limit n).path = m.path
      ∧ (m.limit n).query "limit" = some (QueryValue.num n)
      ∧ (m.limit n).query k1 = m.query k1)
    ∧ ((m.round r).account = m.account ∧ (m.round r).path = m.path
      ∧ (m.round r).query "round" = some (QueryValue.num r)
      ∧ (m.round r).query k2 = m.query k2)
    ∧ ((m.nextToken tok).account = m.account ∧ (m.nextToken tok).path = m.path
      ∧ (m.nextToken tok).query "next" = some (QueryValue.str tok)
      ∧ (m.nextToken tok).query k3 = m.query k3)
    ∧ ((m.includeAll b).account = m.account ∧ (m.includeAll b).path = m.path
      ∧ (m.includeAll b).query "include-all" = some (QueryValue.bool b)
      ∧ (m.includeAll b).query k4 = m.query k4
      ∧ m.includeAll.query "include-all" = some (QueryValue.bool true))
    ∧ ((m.applicationID app).account = m.account
      ∧ (m.applicationID app).path = m.path
      ∧ (m.applicationID app).query "application-id" = some (QueryValue.num app)
      ∧ (m.applicationID app).query k5 = m.query k5) := by
  refine ⟨⟨rfl, rfl, ?_, ?_⟩, ⟨rfl, rfl, ?_, ?_⟩, ⟨rfl, rfl, ?_, ?_⟩,
    ⟨rfl, rfl, ?_, ?_, ?_⟩, ⟨rfl, rfl, ?_, ?_⟩⟩ <;>
    simp [LookupAccountAppLocalStates.limit, LookupAccountAppLocalStates.round,
      LookupAccountAppLocalStates.nextToken, LookupAccountAppLocalStates.includeAll,
      LookupAccountAppLocalStates.applicationID, hk1, hk2, hk3, hk4, hk5]

/-- Witness for C9 at a freshly constructed request for a concrete account,
with concrete arguments and the off-key `"other"`. -/
theorem lookupAccountAppLocalStates_builder_frame_witness :
    ("other" ≠ "limit" ∧ "other" ≠ "round" ∧ "other" ≠ "next"
      ∧ "other" ≠ "include-all" ∧ "other" ≠ "application-id")
    ∧ (((LookupAccountAppLocalStates.create "ACC").limit 20).account
          = (LookupAccountAppLocalStates.create "ACC").account
      ∧ ((LookupAccountAppLocalStates.create "ACC").limit 20).path
          = (LookupAccountAppLocalStates.create "ACC").path
      ∧ ((LookupAccountAppLocalStates.create "ACC").limit 20).query "limit"
          = some (QueryValue.num 20)
      ∧ ((LookupAccountAppLocalStates.create "ACC").limit 20).query "other"
          = (LookupAccountAppLocalStates.create "ACC").query "other")
    ∧ (((LookupAccountAppLocalStates.create "ACC").round 18309917).account
          = (LookupAccountAppLocalStates.create "ACC").account
      ∧ ((LookupAccountAppLocalStates.create "ACC").round 18309917).path
          = (LookupAccountAppLocalStates.create "ACC").path
      ∧ ((LookupAccountAppLocalStates.create "ACC").round 18309917).query "round"
          = some (QueryValue.num 18309917)
      ∧ ((LookupAccountAppLocalStates.create "ACC").round 18309917).query "other"
          = (LookupAccountAppLocalStates.create "ACC").query "other")
    ∧ (((LookupAccountAppLocalStates.create "ACC").nextToken "tok").account
          = (LookupAccountAppLocalStates.create "ACC").account
      ∧ ((LookupAccountAppLocalStates.create "ACC").nextToken "tok").path
          = (LookupAccountAppLocalStates.create "ACC").path
      ∧ ((LookupAccountAppLocalStates.create "ACC").nextToken "tok").query "next"
          = some (QueryValue.str "tok")
      ∧ ((LookupAccountAppLocalStates.create "ACC").nextToken "tok").query "other"
          = (LookupAccountAppLocalStates.create "ACC").query "other")
    ∧ (((LookupAccountAppLocalStates.create "ACC").includeAll false).account
          = (LookupAccountAppLocalStates.create "ACC").account
      ∧ ((LookupAccountAppLocalStates.create "ACC").includeAll false).path
          = (LookupAccountAppLocalStates.create "ACC").path
      ∧ ((LookupAccountAppLocalStates.create "ACC").includeAll false).query "include-all"
          = some (QueryValue.bool false)
      ∧ ((LookupAccountAppLocalStates.create "ACC").includeAll false).query "other"
          = (LookupAccountAppLocalStates.create "ACC").query "other"
      ∧ (LookupAccountAppLocalStates.create "ACC").includeAll.query "include-all"
          = some (QueryValue.bool true))
    ∧ (((LookupAccountAppLocalStates.create "ACC").applicationID 163650).account
          = (LookupAccountAppLocalStates.create "ACC").account
      ∧ ((LookupAccountAppLocalStates.create "ACC").applicationID 163650).path
          = (LookupAccountAppLocalStates.create "ACC").path
      ∧ ((LookupAccountAppLocalStates.create "ACC").applicationID 163650).query "application-id"
          = some (QueryValue.num 163650)
      ∧ ((LookupAccountAppLocalStates.create "ACC").applicationID 163650).query "other"
          = (LookupAccountAppLocalStates.create "ACC").query "other") :=
  ⟨⟨by decide, by decide, by decide, by decide, by decide⟩,
    lookupAccountAppLocalStates_builder_frame
      (LookupAccountAppLocalStates.create "ACC") 20 18309917 163650 "tok" false
      "other" "other" "other" "other" "other"
      (by decide) (by decide) (by decide) (by decide) (by decide)⟩

/-- C10: a request constructed for account `a` has path
`/v2/accounts/` ++ `a` ++ `/apps-local-state`, and the path is unchanged by any
sequence of query-builder calls — it depends only on the account given at
construction. -/
theorem lookupAccountAppLocalStates_path_spec (a : String)
    (calls : List BuilderCall) :
    (LookupAccountAppLocalStates.create a).path
        = "/v2/accounts/" ++ a ++ "/apps-local-state"
    ∧ (applyCalls (LookupAccountAppLocalStates.create a) calls).path
        = (LookupAccountAppLocalStates.create a).path := by
  constructor
  · rfl
  · simp [LookupAccountAppLocalStates.path, applyCalls_account]

end JsSdk
